import Mathlib

/-!
# Home Assistant fallback skill (homeassistant-skill/main.go)

A shallow embedding of the skill plugin in `main.go` and the properties of its
lifecycle and intent-handling methods.

Modelling conventions.

* The receiver `*HomeAssistantSkill` is passed explicitly and every method returns a
  `Call`: the skill after the call, the HTTP requests it handed to `httpClient.Do`, and
  what the method returned (`none` when the body dereferences a nil pointer and panics).
* A Go `error` is the string of its `Error()` method; a nil error is `none`.
* Everything outside the process (`net/http`, `encoding/json`, the clock) is a
  parameter: `Net`, `now`, `elapsed`.
* Calls to the logger change no field of the skill and are left out.
* The skill is one built by `NewSkillPlugin` (its logger and HTTP client are set), and
  the `config` and `intent` arguments of the methods are non-nil.
-/

namespace HomeAssistant

/-! ## Host types (package `skills`) -/

/-- Modelled from the spec: `skills.SkillState` is declared in the host package; the spec
gives its four values, which are the four constants `main.go` uses. -/
inductive SkillState where
  | loading
  | ready
  | error
  | shutdown
deriving DecidableEq, Repr

/-- Modelled from the spec: the text `%s` prints for a `skills.SkillState`. -/
def SkillState.toString : SkillState → String
  | .loading => "loading"
  | .ready => "ready"
  | .error => "error"
  | .shutdown => "shutdown"

/-- Modelled from the spec: `skills.SkillStatus` is declared in the host package. The
fields are the ones `main.go` reads and writes; `LastUsed` is a clock reading and
`UsageCount` the spec's "monotonically increasing usage counter". -/
structure SkillStatus where
  State : SkillState
  Healthy : Bool
  LastError : String
  LastUsed : Nat
  UsageCount : Nat
deriving DecidableEq, Repr

/-- A value of the host's `map[string]interface{}` configuration, by dynamic type.
`float64` carries the (finite) number it holds; `other` is every other dynamic type,
`nil` included. -/
inductive ConfigValue where
  | str (s : String)
  | bool (b : Bool)
  | float64 (v : ℚ)
  | other
deriving DecidableEq, Repr

/-- The fields of `skills.SkillConfig` that `main.go` uses. `Config` is the generic
key-value map, looked up with `List.lookup`. -/
structure SkillConfig where
  SkillID : String
  Version : String
  Config : List (String × ConfigValue)
deriving DecidableEq, Repr

/-- The fields of `skills.VoiceIntent` that `main.go` uses. -/
structure VoiceIntent where
  Intent : String
  Transcript : String
  DeviceID : String
deriving DecidableEq, Repr

/-- One `skills.SkillAction` (`Type_` is its field `Type`); `Parameters` is a map whose
values are all strings here. -/
structure SkillAction where
  Type_ : String
  Target : String
  Parameters : List (String × String)
  Success : Bool
deriving DecidableEq, Repr

/-- The fields of `skills.SkillResponse` that `main.go` sets; an unset field has its
zero value. `ResponseTime` is a duration in nanoseconds. -/
structure SkillResponse where
  Success : Bool := false
  Message : String := ""
  SpeechText : String := ""
  AudioURL : String := ""
  Error : String := ""
  ErrorCode : String := ""
  ResponseTime : Nat := 0
  Actions : List SkillAction := []
  Metadata : List (String × String) := []
deriving DecidableEq, Repr

/-! ## Types of `main.go` -/

/-- The struct `HAConfig`. -/
structure HAConfig where
  BaseURL : String := ""
  AccessToken : String := ""
  MQTTEnabled : Bool := false
  MQTTTopic : String := ""
  DeviceID : String := ""
  DeviceName : String := ""
  Timeout : Int := 0
deriving DecidableEq, Repr

/-- The struct `HAVoiceRequest`. -/
structure HAVoiceRequest where
  Text : String
  Language : String
  DeviceID : String
deriving DecidableEq, Repr

/-- The struct `HAVoiceResponse`. -/
structure HAVoiceResponse where
  Success : Bool := false
  Text : String := ""
  SpeechText : String := ""
  AudioURL : String := ""
  ErrorMessage : String := ""
deriving DecidableEq, Repr

/-- The part of `http.Client` the skill sets: `Timeout`, a `time.Duration`
(signed 64-bit nanoseconds). -/
structure HTTPClient where
  Timeout : Int
deriving DecidableEq, Repr

/-- The struct `HomeAssistantSkill` without its logger. `config` and `haConfig` are
pointers, nil (`none`) until a lifecycle call sets them. -/
structure HomeAssistantSkill where
  config : Option SkillConfig
  status : SkillStatus
  httpClient : HTTPClient
  haConfig : Option HAConfig
deriving DecidableEq, Repr

/-! ## The world outside the process -/

/-- A request as handed to `httpClient.Do`: method, URL, the two headers the skill sets,
the value marshalled into the body (`nil` body for the probe) and the client timeout in
force. -/
structure HTTPRequest where
  method : String
  url : String
  authorization : String
  contentType : String
  body : Option HAVoiceRequest
  timeout : Int
deriving DecidableEq, Repr

/-- What `httpClient.Do` followed by `io.ReadAll(resp.Body)` can give: `Do` fails, or it
returns a response with a status code whose body either reads in full or fails to. -/
inductive HTTPResult where
  | transportError (err : String)
  | response (status : Int) (body : Except String String)

/-- The library and network behaviour the skill depends on.
* `newRequestError method url`: the error of `http.NewRequestWithContext`, if any;
* `roundTrip`: the network's answer to a request;
* `jsonUnmarshal`: `json.Unmarshal` into a fresh `HAVoiceResponse`. -/
structure Net where
  newRequestError : String → String → Option String
  roundTrip : HTTPRequest → HTTPResult
  jsonUnmarshal : String → Except String HAVoiceResponse

/-- The outcome of a method call: the skill afterwards, the requests handed to
`httpClient.Do` in order, and the returned value, `none` if the call panicked. -/
structure Call (α : Type) where
  skill : HomeAssistantSkill
  sent : List HTTPRequest
  result : Option α

/-! ## Go primitives -/

/-- Wrap-around of signed 64-bit arithmetic. -/
def wrapInt64 (x : Int) : Int :=
  (x + 2 ^ 63) % 2 ^ 64 - 2 ^ 63

/-- The conversion `int(timeout)` of a finite `float64`: the fraction is discarded
(truncation toward zero). A value that does not fit `int` (64 bits) has an
implementation-specific result; amd64 gives the smallest `int`. -/
def float64ToInt (v : ℚ) : Int :=
  let t : Int := if 0 ≤ v then ⌊v⌋ else ⌈v⌉
  if -2 ^ 63 ≤ t ∧ t < 2 ^ 63 then t else -2 ^ 63

/-- One second as a `time.Duration`, in nanoseconds. -/
def Second : Int := 1000000000

/-- The product `time.Duration(n) * time.Second`. -/
def durationSeconds (n : Int) : Int :=
  wrapInt64 (n * Second)

/-- The function `strings.TrimSuffix`. -/
def TrimSuffix (s suffix : String) : String :=
  if suffix.data.isSuffixOf s.data then
    ⟨s.data.take (s.data.length - suffix.data.length)⟩
  else s

/-! ## The methods -/

/-- The function `NewSkillPlugin`. -/
def NewSkillPlugin : HomeAssistantSkill :=
  { config := none
    status := { State := .loading, Healthy := false, LastError := "", LastUsed := 0,
                UsageCount := 0 }
    httpClient := { Timeout := 30 * Second }
    haConfig := none }

/-- The value `configMap[key].(string)` when the assertion holds. -/
def asString : Option ConfigValue → Option String
  | some (.str s) => some s
  | _ => none

/-- The value `configMap[key].(bool)` when the assertion holds. -/
def asBool : Option ConfigValue → Option Bool
  | some (.bool b) => some b
  | _ => none

/-- The value `configMap[key].(float64)` when the assertion holds. -/
def asFloat64 : Option ConfigValue → Option ℚ
  | some (.float64 v) => some v
  | _ => none

/-- The struct that `parseHAConfig` stores in `s.haConfig`: the defaults, each
overridden by the map entry of the right dynamic type. -/
def parsedHAConfig (configMap : List (String × ConfigValue)) : HAConfig :=
  { BaseURL := (asString (configMap.lookup "base_url")).getD "http://homeassistant.local:8123"
    AccessToken := (asString (configMap.lookup "access_token")).getD ""
    DeviceID := (asString (configMap.lookup "device_id")).getD "loqa-voice-assistant"
    DeviceName := (asString (configMap.lookup "device_name")).getD "Loqa Voice Assistant"
    MQTTEnabled := (asBool (configMap.lookup "mqtt_enabled")).getD false
    MQTTTopic := (asString (configMap.lookup "mqtt_topic")).getD "homeassistant/voice"
    Timeout := ((asFloat64 (configMap.lookup "timeout_seconds")).map float64ToInt).getD 30 }

/-- The method `parseHAConfig`: the skill afterwards and the returned error; `none` when
`s.config` is nil. The new `haConfig` is stored before the token is validated. -/
def parseHAConfig (s : HomeAssistantSkill) : Option (HomeAssistantSkill × Option String) :=
  match s.config with
  | none => none
  | some config =>
    let haConfig := parsedHAConfig config.Config
    let s1 := { s with haConfig := some haConfig }
    if haConfig.AccessToken = "" then
      some (s1, some "access_token is required for Home Assistant integration")
    else
      some (s1, none)

/-- The method `testConnection`: the returned error and the request handed to
`httpClient.Do`, if one was; `none` when `s.haConfig` is nil. -/
def testConnection (net : Net) (s : HomeAssistantSkill) :
    Option (Option String) × List HTTPRequest :=
  match s.haConfig with
  | none => (none, [])
  | some haConfig =>
    let url := TrimSuffix haConfig.BaseURL "/" ++ "/api/"
    match net.newRequestError "GET" url with
    | some err => (some (some ("failed to create request: " ++ err)), [])
    | none =>
      let req : HTTPRequest :=
        { method := "GET", url := url
          authorization := "Bearer " ++ haConfig.AccessToken
          contentType := "application/json"
          body := none, timeout := s.httpClient.Timeout }
      match net.roundTrip req with
      | .transportError err => (some (some ("failed to connect to HA: " ++ err)), [req])
      | .response status _ =>
        if status ≠ 200 then
          (some (some ("HA API returned status " ++ toString status)), [req])
        else
          (some none, [req])

/-- The method `Initialize`. -/
def Initialize (net : Net) (s : HomeAssistantSkill) (config : SkillConfig) :
    Call (Option String) :=
  let s := { s with config := some config }
  match parseHAConfig s with
  | none => { skill := s, sent := [], result := none }
  | some (s, some err) =>
    let s := { s with status := { s.status with State := .error } }
    let s := { s with status :=
                 { s.status with LastError := "Failed to parse HA config: " ++ err } }
    { skill := s, sent := [], result := some (some err) }
  | some (s, none) =>
    match s.haConfig with
    | none => { skill := s, sent := [], result := none }
    | some haConfig =>
      let s := if haConfig.Timeout > 0 then
          { s with httpClient := { s.httpClient with Timeout := durationSeconds haConfig.Timeout } }
        else s
      match testConnection net s with
      | (none, sent) => { skill := s, sent := sent, result := none }
      | (some probe, sent) =>
        let s := match probe with
          | some err =>
            { s with status :=
                { s.status with LastError := "HA connection test failed: " ++ err } }
          | none => s
        let s := { s with status := { s.status with State := .ready } }
        let s := { s with status := { s.status with Healthy := true } }
        { skill := s, sent := sent, result := some none }

/-- The method `Teardown`. -/
def Teardown (s : HomeAssistantSkill) : Call (Option String) :=
  let s := { s with status := { s.status with State := .shutdown } }
  let s := { s with status := { s.status with Healthy := false } }
  { skill := s, sent := [], result := some none }

/-- The method `CanHandle`. -/
def CanHandle (s : HomeAssistantSkill) (_intent : VoiceIntent) : Bool :=
  if !s.status.Healthy then false else true

/-- The method `sendToHomeAssistant`: the returned reply or error and the request handed
to `httpClient.Do`, if one was; `none` when `s.haConfig` is nil. Marshalling a struct
of three strings cannot fail, so the body is the request value itself. -/
def sendToHomeAssistant (net : Net) (s : HomeAssistantSkill) (request : HAVoiceRequest) :
    Option (Except String HAVoiceResponse) × List HTTPRequest :=
  match s.haConfig with
  | none => (none, [])
  | some haConfig =>
    let url := TrimSuffix haConfig.BaseURL "/" ++ "/api/voice/process"
    match net.newRequestError "POST" url with
    | some err => (some (.error ("failed to create request: " ++ err)), [])
    | none =>
      let req : HTTPRequest :=
        { method := "POST", url := url
          authorization := "Bearer " ++ haConfig.AccessToken
          contentType := "application/json"
          body := some request, timeout := s.httpClient.Timeout }
      match net.roundTrip req with
      | .transportError err => (some (.error ("failed to send request: " ++ err)), [req])
      | .response _ (.error err) =>
        (some (.error ("failed to read response: " ++ err)), [req])
      | .response status (.ok body) =>
        if status ≠ 200 then
          (some (.ok { Success := false
                       ErrorMessage := "HA API error: " ++ toString status ++ " - " ++ body }),
           [req])
        else
          match net.jsonUnmarshal body with
          | .error err => (some (.error ("failed to unmarshal response: " ++ err)), [req])
          | .ok haResponse => (some (.ok haResponse), [req])

/-- The method `HandleIntent`: the result is the pair (response, error) it returns.
`now` is the clock reading stored in `LastUsed`, `elapsed` the value of
`time.Since(startTime)`. The counter is incremented before `s.haConfig` is read. -/
def HandleIntent (net : Net) (now elapsed : Nat) (s : HomeAssistantSkill)
    (intent : VoiceIntent) : Call (Option SkillResponse × Option String) :=
  let s := { s with status := { s.status with LastUsed := now } }
  let s := { s with status := { s.status with UsageCount := s.status.UsageCount + 1 } }
  match s.haConfig with
  | none => { skill := s, sent := [], result := none }
  | some haConfig =>
    let haRequest : HAVoiceRequest :=
      { Text := intent.Transcript, Language := "en", DeviceID := haConfig.DeviceID }
    match sendToHomeAssistant net s haRequest with
    | (none, sent) => { skill := s, sent := sent, result := none }
    | (some (.error err), sent) =>
      { skill := s, sent := sent
        result := some
          (some { Success := false
                  Message := "Failed to process with Home Assistant"
                  SpeechText :=
                    "Sorry, I couldn't connect to Home Assistant to process that request."
                  Error := err
                  ErrorCode := "ha_connection_error"
                  ResponseTime := elapsed },
           none) }
    | (some (.ok haResponse), sent) =>
      let response : SkillResponse :=
        { Success := haResponse.Success
          Message := haResponse.Text
          SpeechText := haResponse.SpeechText
          AudioURL := haResponse.AudioURL
          ResponseTime := elapsed
          Actions :=
            [{ Type_ := "home_assistant_command"
               Target := "homeassistant"
               Parameters := [("text", intent.Transcript), ("device_id", intent.DeviceID)]
               Success := haResponse.Success }]
          Metadata :=
            [("ha_device_id", haConfig.DeviceID), ("ha_base_url", haConfig.BaseURL)] }
      let response := if !haResponse.Success then
          { response with Error := haResponse.ErrorMessage, ErrorCode := "ha_processing_error" }
        else response
      { skill := s, sent := sent, result := some (some response, none) }

/-- The method `GetStatus`. -/
def GetStatus (s : HomeAssistantSkill) : SkillStatus :=
  s.status

/-- The method `UpdateConfig`. -/
def UpdateConfig (net : Net) (s : HomeAssistantSkill) (config : SkillConfig) :
    Call (Option String) :=
  let s := { s with config := some config }
  match parseHAConfig s with
  | none => { skill := s, sent := [], result := none }
  | some (s, some err) =>
    { skill := s, sent := [], result := some (some ("failed to parse updated HA config: " ++ err)) }
  | some (s, none) =>
    match s.haConfig with
    | none => { skill := s, sent := [], result := none }
    | some haConfig =>
      let s := if haConfig.Timeout > 0 then
          { s with httpClient := { s.httpClient with Timeout := durationSeconds haConfig.Timeout } }
        else s
      match testConnection net s with
      | (none, sent) => { skill := s, sent := sent, result := none }
      | (some (some err), sent) =>
        let s := { s with status :=
                     { s.status with LastError := "HA connection test failed: " ++ err } }
        { skill := s, sent := sent, result := some none }
      | (some none, sent) =>
        let s := { s with status := { s.status with LastError := "" } }
        let s := { s with status := { s.status with Healthy := true } }
        { skill := s, sent := sent, result := some none }

/-- The method `HealthCheck`. -/
def HealthCheck (net : Net) (s : HomeAssistantSkill) : Call (Option String) :=
  if s.status.State ≠ .ready then
    { skill := s, sent := []
      result := some (some ("skill not ready, current state: " ++ s.status.State.toString)) }
  else
    match testConnection net s with
    | (none, sent) => { skill := s, sent := sent, result := none }
    | (some (some err), sent) =>
      let s := { s with status := { s.status with Healthy := false } }
      let s := { s with status :=
                   { s.status with LastError := "HA health check failed: " ++ err } }
      { skill := s, sent := sent, result := some (some err) }
    | (some none, sent) =>
      let s := { s with status := { s.status with Healthy := true } }
      let s := { s with status := { s.status with LastError := "" } }
      { skill := s, sent := sent, result := some none }

/-! ## Definitions used to state the properties -/

/-- The skill at the moment `Initialize` and `UpdateConfig` probe the hub: the new
configuration is stored and parsed and a positive timeout is applied. -/
def withConfig (s : HomeAssistantSkill) (config : SkillConfig) : HomeAssistantSkill :=
  { config := some config
    status := s.status
    httpClient :=
      if (parsedHAConfig config.Config).Timeout > 0 then
        { Timeout := durationSeconds (parsedHAConfig config.Config).Timeout }
      else s.httpClient
    haConfig := some (parsedHAConfig config.Config) }

/-- The request `sendToHomeAssistant` hands to `httpClient.Do` for an intent. -/
def processRequest (s : HomeAssistantSkill) (haConfig : HAConfig) (intent : VoiceIntent) :
    HTTPRequest :=
  { method := "POST"
    url := TrimSuffix haConfig.BaseURL "/" ++ "/api/voice/process"
    authorization := "Bearer " ++ haConfig.AccessToken
    contentType := "application/json"
    body := some { Text := intent.Transcript, Language := "en", DeviceID := haConfig.DeviceID }
    timeout := s.httpClient.Timeout }

/-- The request `testConnection` hands to `httpClient.Do`. -/
def probeRequest (s : HomeAssistantSkill) (haConfig : HAConfig) : HTTPRequest :=
  { method := "GET"
    url := TrimSuffix haConfig.BaseURL "/" ++ "/api/"
    authorization := "Bearer " ++ haConfig.AccessToken
    contentType := "application/json"
    body := none
    timeout := s.httpClient.Timeout }

/-- One lifecycle call of the host, with the environment it runs in. -/
inductive LifecycleCall where
  | init (net : Net) (config : SkillConfig)
  | update (net : Net) (config : SkillConfig)

/-- The configuration a lifecycle call passes. -/
def LifecycleCall.config : LifecycleCall → SkillConfig
  | .init _ config => config
  | .update _ config => config

/-- Running one lifecycle call: `Initialize` or `UpdateConfig`. -/
def LifecycleCall.run (s : HomeAssistantSkill) : LifecycleCall → Call (Option String)
  | .init net config => Initialize net s config
  | .update net config => UpdateConfig net s config

/-- The skill after a sequence of lifecycle calls, first call first. -/
def runCalls (s : HomeAssistantSkill) (calls : List LifecycleCall) : HomeAssistantSkill :=
  calls.foldl (fun s call => (call.run s).skill) s

/-- The skills the host can hold: the one `NewSkillPlugin` returns and every skill a
method call leaves behind. -/
inductive Reachable : HomeAssistantSkill → Prop
  | new : Reachable NewSkillPlugin
  | afterInitialize (net : Net) (s : HomeAssistantSkill) (config : SkillConfig) :
      Reachable s → Reachable (Initialize net s config).skill
  | afterTeardown (s : HomeAssistantSkill) : Reachable s → Reachable (Teardown s).skill
  | afterHandleIntent (net : Net) (now elapsed : Nat) (s : HomeAssistantSkill)
      (intent : VoiceIntent) :
      Reachable s → Reachable (HandleIntent net now elapsed s intent).skill
  | afterUpdateConfig (net : Net) (s : HomeAssistantSkill) (config : SkillConfig) :
      Reachable s → Reachable (UpdateConfig net s config).skill
  | afterHealthCheck (net : Net) (s : HomeAssistantSkill) :
      Reachable s → Reachable (HealthCheck net s).skill

/-! ## Example environments -/

/-- The reply body of the spec's success example. -/
def okBody : String :=
  "\x7b\"success\":true,\"text\":\"ok\",\"speech_text\":\"OK\"\x7d"

/-- The value of `json.Unmarshal` on the bodies used in the examples: `okBody` decodes to
its three fields, the HTML page `<html>` is rejected. -/
def sampleUnmarshal (body : String) : Except String HAVoiceResponse :=
  if body = okBody then .ok { Success := true, Text := "ok", SpeechText := "OK" }
  else .error "invalid character"

/-- A hub that answers every request with the given status and body. -/
def hubAnswering (status : Int) (body : String) : Net :=
  { newRequestError := fun _ _ => none
    roundTrip := fun _ => .response status (.ok body)
    jsonUnmarshal := sampleUnmarshal }

/-- A hub that refuses every connection. -/
def hubUnreachable : Net :=
  { newRequestError := fun _ _ => none
    roundTrip := fun _ => .transportError "connection refused"
    jsonUnmarshal := sampleUnmarshal }

/-- A host configuration holding the given entries. -/
def hostConfig (entries : List (String × ConfigValue)) : SkillConfig :=
  { SkillID := "com.loqalabs.homeassistant", Version := "1.0.0", Config := entries }

/-- A skill as `Initialize` leaves it with token `secret` and every other key absent. -/
def readySkill : HomeAssistantSkill :=
  { config := some (hostConfig [("access_token", .str "secret")])
    status := { State := .ready, Healthy := true, LastError := "", LastUsed := 0,
                UsageCount := 0 }
    httpClient := { Timeout := 30 * Second }
    haConfig := some (parsedHAConfig [("access_token", .str "secret")]) }

/-- An intent with a transcript. -/
def lightsOn : VoiceIntent :=
  { Intent := "unknown", Transcript := "turn on the lights", DeviceID := "kitchen" }

/-! ## Unfolding lemmas -/

/-- The example skill `readySkill` is what `Initialize` makes of a fresh skill. -/
theorem readySkill_initialized :
    (Initialize (hubAnswering 200 "") NewSkillPlugin
      (hostConfig [("access_token", .str "secret")])).skill = readySkill := by
  decide

theorem parseHAConfig_stored (s : HomeAssistantSkill) (config : SkillConfig) :
    parseHAConfig { s with config := some config } =
      some ({ s with config := some config, haConfig := some (parsedHAConfig config.Config) },
        if (parsedHAConfig config.Config).AccessToken = "" then
          some "access_token is required for Home Assistant integration"
        else none) := by
  unfold parseHAConfig
  by_cases h : (parsedHAConfig config.Config).AccessToken = "" <;> simp [h]

theorem Initialize_of_no_token (net : Net) (s : HomeAssistantSkill) (config : SkillConfig)
    (h : (parsedHAConfig config.Config).AccessToken = "") :
    Initialize net s config =
      { skill :=
          { config := some config
            status := { s.status with
              State := .error
              LastError := "Failed to parse HA config: " ++
                "access_token is required for Home Assistant integration" }
            httpClient := s.httpClient
            haConfig := some (parsedHAConfig config.Config) }
        sent := []
        result := some (some "access_token is required for Home Assistant integration") } := by
  unfold Initialize
  simp only [parseHAConfig_stored, h, if_true]

theorem UpdateConfig_of_no_token (net : Net) (s : HomeAssistantSkill) (config : SkillConfig)
    (h : (parsedHAConfig config.Config).AccessToken = "") :
    UpdateConfig net s config =
      { skill :=
          { config := some config
            status := s.status
            httpClient := s.httpClient
            haConfig := some (parsedHAConfig config.Config) }
        sent := []
        result := some (some ("failed to parse updated HA config: " ++
          "access_token is required for Home Assistant integration")) } := by
  unfold UpdateConfig
  simp only [parseHAConfig_stored, h, if_true]

theorem testConnection_withConfig (net : Net) (s : HomeAssistantSkill) (config : SkillConfig) :
    (testConnection net (withConfig s config)).1 ≠ none := by
  unfold testConnection withConfig
  simp only
  split
  · simp
  · split
    · simp
    · split <;> simp

theorem Initialize_of_token (net : Net) (s : HomeAssistantSkill) (config : SkillConfig)
    (h : (parsedHAConfig config.Config).AccessToken ≠ "") :
    Initialize net s config =
      { skill :=
          { withConfig s config with
            status := { s.status with
              State := .ready
              Healthy := true
              LastError :=
                match (testConnection net (withConfig s config)).1 with
                | some (some err) => "HA connection test failed: " ++ err
                | _ => s.status.LastError } }
        sent := (testConnection net (withConfig s config)).2
        result := some none } := by
  have hp := testConnection_withConfig net s config
  unfold Initialize
  simp only [parseHAConfig_stored, h, if_false]
  have hs : (if (parsedHAConfig config.Config).Timeout > 0 then
        { config := some config, status := s.status
          httpClient := { Timeout := durationSeconds (parsedHAConfig config.Config).Timeout }
          haConfig := some (parsedHAConfig config.Config) : HomeAssistantSkill }
      else
        { config := some config, status := s.status, httpClient := s.httpClient
          haConfig := some (parsedHAConfig config.Config) }) = withConfig s config := by
    unfold withConfig
    split <;> rfl
  simp only [hs]
  rcases hr : testConnection net (withConfig s config) with ⟨r, sent⟩
  rw [hr] at hp
  rcases r with _ | _ | err
  · exact absurd rfl hp
  · rfl
  · rfl

theorem UpdateConfig_of_token (net : Net) (s : HomeAssistantSkill) (config : SkillConfig)
    (h : (parsedHAConfig config.Config).AccessToken ≠ "") :
    UpdateConfig net s config =
      { skill :=
          { withConfig s config with
            status :=
              match (testConnection net (withConfig s config)).1 with
              | some (some err) =>
                { s.status with LastError := "HA connection test failed: " ++ err }
              | _ => { s.status with LastError := "", Healthy := true } }
        sent := (testConnection net (withConfig s config)).2
        result := some none } := by
  have hp := testConnection_withConfig net s config
  unfold UpdateConfig
  simp only [parseHAConfig_stored, h, if_false]
  have hs : (if (parsedHAConfig config.Config).Timeout > 0 then
        { config := some config, status := s.status
          httpClient := { Timeout := durationSeconds (parsedHAConfig config.Config).Timeout }
          haConfig := some (parsedHAConfig config.Config) : HomeAssistantSkill }
      else
        { config := some config, status := s.status, httpClient := s.httpClient
          haConfig := some (parsedHAConfig config.Config) }) = withConfig s config := by
    unfold withConfig
    split <;> rfl
  simp only [hs]
  rcases hr : testConnection net (withConfig s config) with ⟨r, sent⟩
  rw [hr] at hp
  rcases r with _ | _ | err
  · exact absurd rfl hp
  · rfl
  · rfl

theorem HandleIntent_error_nil (net : Net) (now elapsed : Nat) (s : HomeAssistantSkill)
    (intent : VoiceIntent) (r : Option SkillResponse × Option String)
    (h : (HandleIntent net now elapsed s intent).result = some r) : r.2 = none := by
  unfold HandleIntent at h
  simp only at h
  split at h
  · simp at h
  · split at h
    · simp at h
    · simp only [Option.some.injEq] at h
      rw [← h]
    · simp only [Option.some.injEq] at h
      rw [← h]

theorem sendToHomeAssistant_sent (net : Net) (t : HomeAssistantSkill) (q : HAVoiceRequest)
    (r : HTTPRequest) (hr : r ∈ (sendToHomeAssistant net t q).2) :
    r.timeout = t.httpClient.Timeout := by
  unfold sendToHomeAssistant at hr
  rcases hc : t.haConfig with _ | c
  · simp [hc] at hr
  · simp only [hc] at hr
    rcases hn : net.newRequestError "POST" (TrimSuffix c.BaseURL "/" ++ "/api/voice/process")
      with _ | e
    · simp only [hn] at hr
      rcases hd : net.roundTrip
          { method := "POST", url := TrimSuffix c.BaseURL "/" ++ "/api/voice/process"
            authorization := "Bearer " ++ c.AccessToken, contentType := "application/json"
            body := some q, timeout := t.httpClient.Timeout } with e | ⟨status, e | body⟩
      · simp only [hd, List.mem_singleton] at hr
        rw [hr]
      · simp only [hd, List.mem_singleton] at hr
        rw [hr]
      · simp only [hd] at hr
        by_cases hst : status = 200
        · simp only [hst, ne_eq, not_true_eq_false, if_false] at hr
          rcases hj : net.jsonUnmarshal body with e | v
          · simp only [hj, List.mem_singleton] at hr
            rw [hr]
          · simp only [hj, List.mem_singleton] at hr
            rw [hr]
        · simp only [ne_eq, hst, not_false_eq_true, if_true, List.mem_singleton] at hr
          rw [hr]
    · simp [hn] at hr

theorem HandleIntent_sent_timeout (net : Net) (now elapsed : Nat) (s : HomeAssistantSkill)
    (intent : VoiceIntent) (req : HTTPRequest)
    (h : req ∈ (HandleIntent net now elapsed s intent).sent) :
    req.timeout = s.httpClient.Timeout := by
  unfold HandleIntent at h
  simp only at h
  split at h
  · simp at h
  · rename_i haConfig hcfg
    split at h
    all_goals
      rename_i sent hsend
      have := sendToHomeAssistant_sent net _ _ req (by rw [hsend]; exact h)
      exact this

/-! ## Properties of `HandleIntent` -/

/-- C1 (as the code has it). When the hub answers the POST with status 200 and a body that
`json.Unmarshal` rejects, `sendToHomeAssistant` returns an error, and `HandleIntent`
turns it into a response (success=false, error code "ha_connection_error", the fixed
apology) returned with a nil error. No outcome of any call makes `HandleIntent` return a
non-nil error. -/
theorem C1_unparsable_body_gives_response (net : Net) (now elapsed : Nat)
    (s : HomeAssistantSkill) (haConfig : HAConfig) (intent : VoiceIntent)
    (body err : String)
    (hcfg : s.haConfig = some haConfig)
    (hnew : net.newRequestError "POST" (processRequest s haConfig intent).url = none)
    (hdo : net.roundTrip (processRequest s haConfig intent) = .response 200 (.ok body))
    (hjson : net.jsonUnmarshal body = .error err) :
    (sendToHomeAssistant net s
        { Text := intent.Transcript, Language := "en", DeviceID := haConfig.DeviceID }).1 =
      some (.error ("failed to unmarshal response: " ++ err)) ∧
    (HandleIntent net now elapsed s intent).result =
      some (some { Success := false
                   Message := "Failed to process with Home Assistant"
                   SpeechText :=
                     "Sorry, I couldn't connect to Home Assistant to process that request."
                   Error := "failed to unmarshal response: " ++ err
                   ErrorCode := "ha_connection_error"
                   ResponseTime := elapsed }, none) ∧
    (∀ (net1 : Net) (now1 elapsed1 : Nat) (s1 : HomeAssistantSkill) (intent1 : VoiceIntent)
       (response : Option SkillResponse) (e : String),
       (HandleIntent net1 now1 elapsed1 s1 intent1).result ≠ some (response, some e)) := by
  unfold processRequest at hnew hdo
  simp only at hnew
  refine ⟨?_, ?_, ?_⟩
  · unfold sendToHomeAssistant
    simp only [hcfg, hnew, hdo, hjson, ne_eq, not_true_eq_false, if_false]
  · unfold HandleIntent sendToHomeAssistant
    simp only [hcfg, hnew, hdo, hjson, ne_eq, not_true_eq_false, if_false]
  · intro net1 now1 elapsed1 s1 intent1 response e h
    have := HandleIntent_error_nil net1 now1 elapsed1 s1 intent1 _ h
    simp at this

/-- Witness of C1 (as the code has it): the hub answers 200 with an HTML page. -/
theorem C1_unparsable_body_gives_response_witness :
    (HandleIntent (hubAnswering 200 "<html>") 1 2 readySkill lightsOn).result =
      some (some { Success := false
                   Message := "Failed to process with Home Assistant"
                   SpeechText :=
                     "Sorry, I couldn't connect to Home Assistant to process that request."
                   Error := "failed to unmarshal response: invalid character"
                   ErrorCode := "ha_connection_error"
                   ResponseTime := 2 }, none) :=
  (C1_unparsable_body_gives_response (hubAnswering 200 "<html>") 1 2 readySkill
    (parsedHAConfig [("access_token", .str "secret")]) lightsOn "<html>" "invalid character"
    rfl rfl rfl rfl).2.1

/-- C1 (as stated) fails: with status 200 and the unparsable body `<html>`, the decoder
returns an error and `HandleIntent` still returns a response with a nil error. -/
theorem C1_counterexample :
    (hubAnswering 200 "<html>").roundTrip (processRequest readySkill
        (parsedHAConfig [("access_token", .str "secret")]) lightsOn) =
      .response 200 (.ok "<html>") ∧
    (hubAnswering 200 "<html>").jsonUnmarshal "<html>" = .error "invalid character" ∧
    (HandleIntent (hubAnswering 200 "<html>") 1 2 readySkill lightsOn).result.map Prod.snd =
      some none := by
  refine ⟨rfl, rfl, by decide⟩

/-- C2. When `httpClient.Do` fails for the POST of a configured skill, `HandleIntent`
returns a nil error and a response with success=false, the fixed apology as speech text
and error code "ha_connection_error". -/
theorem C2_transport_failure_gives_response (net : Net) (now elapsed : Nat)
    (s : HomeAssistantSkill) (haConfig : HAConfig) (intent : VoiceIntent) (err : String)
    (hcfg : s.haConfig = some haConfig)
    (hnew : net.newRequestError "POST" (processRequest s haConfig intent).url = none)
    (hdo : net.roundTrip (processRequest s haConfig intent) = .transportError err) :
    ∃ response : SkillResponse,
      (HandleIntent net now elapsed s intent).result = some (some response, none) ∧
      response.Success = false ∧
      response.SpeechText =
        "Sorry, I couldn't connect to Home Assistant to process that request." ∧
      response.ErrorCode = "ha_connection_error" ∧
      response.Error = "failed to send request: " ++ err ∧
      (HandleIntent net now elapsed s intent).sent = [processRequest s haConfig intent] := by
  unfold processRequest at hnew hdo
  simp only at hnew
  refine ⟨{ Success := false,
             Message := "Failed to process with Home Assistant",
             SpeechText :=
               "Sorry, I couldn't connect to Home Assistant to process that request.",
             Error := "failed to send request: " ++ err,
             ErrorCode := "ha_connection_error",
             ResponseTime := elapsed }, ?_, rfl, rfl, rfl, rfl, ?_⟩
  · unfold HandleIntent sendToHomeAssistant
    simp only [hcfg, hnew, hdo]
  · unfold HandleIntent sendToHomeAssistant processRequest
    simp only [hcfg, hnew, hdo]

/-- Witness of C2: the hub refuses the connection. -/
theorem C2_transport_failure_gives_response_witness :
    ∃ response : SkillResponse,
      (HandleIntent hubUnreachable 1 2 readySkill lightsOn).result =
        some (some response, none) ∧
      response.Success = false ∧
      response.SpeechText =
        "Sorry, I couldn't connect to Home Assistant to process that request." ∧
      response.ErrorCode = "ha_connection_error" ∧
      response.Error = "failed to send request: " ++ "connection refused" ∧
      (HandleIntent hubUnreachable 1 2 readySkill lightsOn).sent =
        [processRequest readySkill (parsedHAConfig [("access_token", .str "secret")])
          lightsOn] :=
  C2_transport_failure_gives_response hubUnreachable 1 2 readySkill
    (parsedHAConfig [("access_token", .str "secret")]) lightsOn "connection refused"
    rfl rfl rfl

/-- C3 (as the code has it). When the hub answers the POST of a configured skill with a
status other than 200 and a body that reads in full, `HandleIntent` returns a nil error
and a response with success=false and error code "ha_processing_error" (which is not
"ha_connection_error"). The status code, in decimal, is part of the response's error
text, which is "HA API error: <status> - <body>"; the message and speech text are empty. -/
theorem C3_non200_gives_processing_error (net : Net) (now elapsed : Nat)
    (s : HomeAssistantSkill) (haConfig : HAConfig) (intent : VoiceIntent)
    (status : Int) (body : String)
    (hcfg : s.haConfig = some haConfig)
    (hnew : net.newRequestError "POST" (processRequest s haConfig intent).url = none)
    (hdo : net.roundTrip (processRequest s haConfig intent) = .response status (.ok body))
    (hstatus : status ≠ 200) :
    ∃ response : SkillResponse,
      (HandleIntent net now elapsed s intent).result = some (some response, none) ∧
      response.Success = false ∧
      response.ErrorCode = "ha_processing_error" ∧
      response.ErrorCode ≠ "ha_connection_error" ∧
      response.Error = "HA API error: " ++ toString status ++ " - " ++ body ∧
      (toString status).data <:+: response.Error.data ∧
      response.Message = "" ∧
      response.SpeechText = "" := by
  unfold processRequest at hnew hdo
  simp only at hnew
  refine ⟨{ Success := false,
             ResponseTime := elapsed,
             Actions :=
               [{ Type_ := "home_assistant_command",
                  Target := "homeassistant",
                  Parameters := [("text", intent.Transcript), ("device_id", intent.DeviceID)],
                  Success := false }],
             Metadata :=
               [("ha_device_id", haConfig.DeviceID), ("ha_base_url", haConfig.BaseURL)],
             Error := "HA API error: " ++ toString status ++ " - " ++ body,
             ErrorCode := "ha_processing_error" }, ?_, rfl, rfl, ?_, rfl, ?_, rfl, rfl⟩
  · unfold HandleIntent sendToHomeAssistant
    simp only [hcfg, hnew, hdo, ne_eq, hstatus, not_false_eq_true, if_true, Bool.not_false]
  · show "ha_processing_error" ≠ "ha_connection_error"
    decide
  · refine ⟨"HA API error: ".data, (" - " ++ body).data, ?_⟩
    simp only [String.data_append, List.append_assoc]

/-- Witness of C3 (as the code has it): the hub answers 503. -/
theorem C3_non200_gives_processing_error_witness :
    ∃ response : SkillResponse,
      (HandleIntent (hubAnswering 503 "Service Unavailable") 1 2 readySkill lightsOn).result =
        some (some response, none) ∧
      response.Success = false ∧
      response.ErrorCode = "ha_processing_error" ∧
      response.ErrorCode ≠ "ha_connection_error" ∧
      response.Error = "HA API error: " ++ toString (503 : Int) ++ " - " ++
        "Service Unavailable" ∧
      (toString (503 : Int)).data <:+: response.Error.data ∧
      response.Message = "" ∧
      response.SpeechText = "" :=
  C3_non200_gives_processing_error (hubAnswering 503 "Service Unavailable") 1 2 readySkill
    (parsedHAConfig [("access_token", .str "secret")]) lightsOn 503 "Service Unavailable"
    rfl rfl rfl (by decide)

/-- C3 (as stated) fails: on status 503 the response message is empty and so does not
include "503"; the status code is in the error text. -/
theorem C3_counterexample :
    ∃ response : SkillResponse,
      (HandleIntent (hubAnswering 503 "Service Unavailable") 1 2 readySkill lightsOn).result =
        some (some response, none) ∧
      response.Message = "" ∧
      ¬ ("503".data <:+: response.Message.data) ∧
      response.Error = "HA API error: 503 - Service Unavailable" :=
  ⟨{ Success := false,
     ResponseTime := 2,
     Actions :=
       [{ Type_ := "home_assistant_command",
          Target := "homeassistant",
          Parameters := [("text", "turn on the lights"), ("device_id", "kitchen")],
          Success := false }],
     Metadata :=
       [("ha_device_id", "loqa-voice-assistant"),
        ("ha_base_url", "http://homeassistant.local:8123")],
     Error := "HA API error: 503 - Service Unavailable",
     ErrorCode := "ha_processing_error" }, by decide, rfl, by decide, rfl⟩

/-- C4. When the hub answers the POST of a configured skill with status 200 and a body
that decodes to a reply `r` with `r.Success = true`, `HandleIntent` returns a nil error
and the response with success=true, message `r.Text`, speech text `r.SpeechText`, audio
URL `r.AudioURL`, empty error text and error code, the single action
("home_assistant_command" on "homeassistant", success=true, parameter "text" = the
transcript) and the metadata holding the configured device id and base URL. -/
theorem C4_success_reply_mapped (net : Net) (now elapsed : Nat)
    (s : HomeAssistantSkill) (haConfig : HAConfig) (intent : VoiceIntent)
    (body : String) (r : HAVoiceResponse)
    (hcfg : s.haConfig = some haConfig)
    (hnew : net.newRequestError "POST" (processRequest s haConfig intent).url = none)
    (hdo : net.roundTrip (processRequest s haConfig intent) = .response 200 (.ok body))
    (hjson : net.jsonUnmarshal body = .ok r)
    (hsuccess : r.Success = true) :
    ∃ (response : SkillResponse) (action : SkillAction),
      (HandleIntent net now elapsed s intent).result = some (some response, none) ∧
      response.Success = true ∧
      response.Message = r.Text ∧
      response.SpeechText = r.SpeechText ∧
      response.AudioURL = r.AudioURL ∧
      response.ErrorCode = "" ∧
      response.Error = "" ∧
      response.Actions = [action] ∧
      action.Type_ = "home_assistant_command" ∧
      action.Target = "homeassistant" ∧
      action.Success = true ∧
      action.Parameters = [("text", intent.Transcript), ("device_id", intent.DeviceID)] ∧
      action.Parameters.lookup "text" = some intent.Transcript ∧
      response.Metadata =
        [("ha_device_id", haConfig.DeviceID), ("ha_base_url", haConfig.BaseURL)] := by
  unfold processRequest at hnew hdo
  simp only at hnew
  refine ⟨{ Success := true,
             Message := r.Text,
             SpeechText := r.SpeechText,
             AudioURL := r.AudioURL,
             ResponseTime := elapsed,
             Actions :=
               [{ Type_ := "home_assistant_command",
                  Target := "homeassistant",
                  Parameters := [("text", intent.Transcript), ("device_id", intent.DeviceID)],
                  Success := true }],
             Metadata :=
               [("ha_device_id", haConfig.DeviceID), ("ha_base_url", haConfig.BaseURL)] },
          { Type_ := "home_assistant_command",
            Target := "homeassistant",
            Parameters := [("text", intent.Transcript), ("device_id", intent.DeviceID)],
            Success := true },
          ?_, rfl, rfl, rfl, rfl, rfl, rfl, rfl, rfl, rfl, rfl, rfl, ?_, rfl⟩
  · unfold HandleIntent sendToHomeAssistant
    simp only [hcfg, hnew, hdo, hjson, hsuccess, ne_eq, not_true_eq_false, if_false,
      Bool.not_true]
    rfl
  · simp [List.lookup]

/-- Witness of C4: the spec's reply body gives speech text "OK", one action and no error
code. -/
theorem C4_success_reply_mapped_witness :
    ∃ (response : SkillResponse) (action : SkillAction),
      (HandleIntent (hubAnswering 200 okBody) 1 2 readySkill lightsOn).result =
        some (some response, none) ∧
      response.Success = true ∧
      response.Message = "ok" ∧
      response.SpeechText = "OK" ∧
      response.AudioURL = "" ∧
      response.ErrorCode = "" ∧
      response.Error = "" ∧
      response.Actions = [action] ∧
      action.Type_ = "home_assistant_command" ∧
      action.Target = "homeassistant" ∧
      action.Success = true ∧
      action.Parameters = [("text", "turn on the lights"), ("device_id", "kitchen")] ∧
      action.Parameters.lookup "text" = some "turn on the lights" ∧
      response.Metadata =
        [("ha_device_id", "loqa-voice-assistant"),
         ("ha_base_url", "http://homeassistant.local:8123")] :=
  C4_success_reply_mapped (hubAnswering 200 okBody) 1 2 readySkill
    (parsedHAConfig [("access_token", .str "secret")]) lightsOn okBody
    { Success := true, Text := "ok", SpeechText := "OK" } rfl rfl rfl rfl rfl

/-- C5. Whatever the skill, the intent and the outcome of the hub call, `HandleIntent`
leaves the usage counter at its old value plus 1, stores the clock reading in last-used,
and leaves state, healthy and last-error (and the configuration and client timeout) as
they were. -/
theorem C5_usage_counter_incremented (net : Net) (now elapsed : Nat)
    (s : HomeAssistantSkill) (intent : VoiceIntent) :
    (HandleIntent net now elapsed s intent).skill.status.UsageCount =
      s.status.UsageCount + 1 ∧
    (HandleIntent net now elapsed s intent).skill.status.LastUsed = now ∧
    (HandleIntent net now elapsed s intent).skill.status.State = s.status.State ∧
    (HandleIntent net now elapsed s intent).skill.status.Healthy = s.status.Healthy ∧
    (HandleIntent net now elapsed s intent).skill.status.LastError = s.status.LastError ∧
    (HandleIntent net now elapsed s intent).skill.config = s.config ∧
    (HandleIntent net now elapsed s intent).skill.haConfig = s.haConfig ∧
    (HandleIntent net now elapsed s intent).skill.httpClient = s.httpClient := by
  have key : (HandleIntent net now elapsed s intent).skill =
      { s with status := { s.status with LastUsed := now,
                                         UsageCount := s.status.UsageCount + 1 } } := by
    unfold HandleIntent
    simp only
    split
    · rfl
    · split <;> rfl
  rw [key]
  exact ⟨rfl, rfl, rfl, rfl, rfl, rfl, rfl, rfl⟩

/-! ## Properties of the lifecycle methods -/

theorem AccessToken_empty_of_lookup (entries : List (String × ConfigValue))
    (h : entries.lookup "access_token" = none ∨
      (∃ v, entries.lookup "access_token" = some v ∧ ∀ t, v ≠ .str t) ∨
      entries.lookup "access_token" = some (.str "")) :
    (parsedHAConfig entries).AccessToken = "" := by
  unfold parsedHAConfig
  simp only
  rcases h with h | ⟨v, h, hv⟩ | h
  · rw [h]; rfl
  · rw [h]
    cases v with
    | str t => exact absurd rfl (hv t)
    | bool b => rfl
    | float64 x => rfl
    | other => rfl
  · rw [h]; rfl

theorem AccessToken_of_lookup (entries : List (String × ConfigValue)) (token : String)
    (h : entries.lookup "access_token" = some (.str token)) :
    (parsedHAConfig entries).AccessToken = token := by
  unfold parsedHAConfig
  simp only
  rw [h]; rfl

/-- C6. When `access_token` is absent from the host config map, is not a string, or is
the empty string, then for every prior skill and every environment `Initialize` and
`UpdateConfig` each return an error without probing the hub. `Initialize` leaves the
state at error; `UpdateConfig` leaves the whole status (state, healthy, last-error
included) as it was. -/
theorem C6_missing_token_rejected (net : Net) (s : HomeAssistantSkill) (config : SkillConfig)
    (h : config.Config.lookup "access_token" = none ∨
      (∃ v, config.Config.lookup "access_token" = some v ∧ ∀ t, v ≠ .str t) ∨
      config.Config.lookup "access_token" = some (.str "")) :
    (Initialize net s config).result =
      some (some "access_token is required for Home Assistant integration") ∧
    (Initialize net s config).skill.status.State = .error ∧
    (Initialize net s config).skill.status.State ≠ .ready ∧
    (Initialize net s config).sent = [] ∧
    (UpdateConfig net s config).result =
      some (some ("failed to parse updated HA config: " ++
        "access_token is required for Home Assistant integration")) ∧
    (UpdateConfig net s config).skill.status = s.status ∧
    (UpdateConfig net s config).skill.status.State = s.status.State ∧
    (UpdateConfig net s config).skill.status.Healthy = s.status.Healthy ∧
    (UpdateConfig net s config).skill.status.LastError = s.status.LastError ∧
    (UpdateConfig net s config).sent = [] := by
  have htoken := AccessToken_empty_of_lookup config.Config h
  rw [Initialize_of_no_token net s config htoken, UpdateConfig_of_no_token net s config htoken]
  refine ⟨rfl, rfl, ?_, rfl, rfl, rfl, rfl, rfl, rfl, rfl⟩
  show SkillState.error ≠ SkillState.ready
  decide

/-- Witness of C6: a config map without `access_token` given to a fresh skill and to a
ready one, a map whose `access_token` is a boolean, and a map whose `access_token` is
the empty string. -/
theorem C6_missing_token_rejected_witness :
    (Initialize (hubAnswering 200 "") NewSkillPlugin
        (hostConfig [("base_url", .str "http://ha:8123")])).result =
      some (some "access_token is required for Home Assistant integration") ∧
    (Initialize (hubAnswering 200 "") NewSkillPlugin
        (hostConfig [("base_url", .str "http://ha:8123")])).skill.status.State = .error ∧
    (UpdateConfig (hubAnswering 200 "") readySkill
        (hostConfig [("base_url", .str "http://ha:8123")])).skill.status =
      readySkill.status ∧
    (Initialize (hubAnswering 200 "") readySkill
        (hostConfig [("access_token", .bool true)])).skill.status.State = .error ∧
    (UpdateConfig (hubAnswering 200 "") readySkill
        (hostConfig [("access_token", .str "")])).result =
      some (some ("failed to parse updated HA config: " ++
        "access_token is required for Home Assistant integration")) :=
  have h := C6_missing_token_rejected (hubAnswering 200 "") NewSkillPlugin
    (hostConfig [("base_url", .str "http://ha:8123")]) (Or.inl (by decide))
  have h2 := C6_missing_token_rejected (hubAnswering 200 "") readySkill
    (hostConfig [("base_url", .str "http://ha:8123")]) (Or.inl (by decide))
  have h3 := C6_missing_token_rejected (hubAnswering 200 "") readySkill
    (hostConfig [("access_token", .bool true)])
    (Or.inr (Or.inl ⟨.bool true, by decide, fun t => by simp⟩))
  have h4 := C6_missing_token_rejected (hubAnswering 200 "") readySkill
    (hostConfig [("access_token", .str "")]) (Or.inr (Or.inr (by decide)))
  ⟨h.1, h.2.1, h2.2.2.2.2.2.1, h3.2.1, h4.2.2.2.2.1⟩

/-- C7. For every skill and every two intents, `CanHandle` gives the same answer, and
that answer is the healthy flag of the status, whatever the state field. -/
theorem C7_CanHandle_is_healthy (s : HomeAssistantSkill) (i1 i2 : VoiceIntent) :
    CanHandle s i1 = CanHandle s i2 ∧
    CanHandle s i1 = s.status.Healthy ∧
    (s.status.Healthy = false → CanHandle s i1 = false) ∧
    (s.status.Healthy = true → CanHandle s i1 = true) := by
  unfold CanHandle
  cases s.status.Healthy <;> simp

theorem testConnection_returns (net : Net) (s : HomeAssistantSkill)
    (h : s.haConfig ≠ none) : (testConnection net s).1 ≠ none := by
  unfold testConnection
  rcases hc : s.haConfig with _ | c
  · exact absurd hc h
  · simp only
    split
    · simp
    · split
      · simp
      · split <;> simp

theorem testConnection_congr (net : Net) (s t : HomeAssistantSkill)
    (h1 : s.haConfig = t.haConfig) (h2 : s.httpClient = t.httpClient) :
    testConnection net s = testConnection net t := by
  unfold testConnection
  rw [h1, h2]

theorem HandleIntent_skill (net : Net) (now elapsed : Nat) (s : HomeAssistantSkill)
    (intent : VoiceIntent) :
    (HandleIntent net now elapsed s intent).skill =
      { s with status := { s.status with LastUsed := now,
                                         UsageCount := s.status.UsageCount + 1 } } := by
  unfold HandleIntent
  simp only
  split
  · rfl
  · split <;> rfl

theorem HealthCheck_not_ready (net : Net) (s : HomeAssistantSkill)
    (h : s.status.State ≠ .ready) :
    HealthCheck net s =
      { skill := s, sent := []
        result := some (some ("skill not ready, current state: " ++ s.status.State.toString)) } := by
  unfold HealthCheck
  simp only [ne_eq, h, not_false_eq_true, if_true]

theorem HealthCheck_ready (net : Net) (s : HomeAssistantSkill)
    (h : s.status.State = .ready) (hc : s.haConfig ≠ none) :
    HealthCheck net s =
      { skill :=
          { s with status :=
              match (testConnection net s).1 with
              | some (some err) =>
                { s.status with Healthy := false, LastError := "HA health check failed: " ++ err }
              | _ => { s.status with Healthy := true, LastError := "" } }
        sent := (testConnection net s).2
        result := (testConnection net s).1 } := by
  have hp := testConnection_returns net s hc
  unfold HealthCheck
  simp only [ne_eq, h, not_true_eq_false, if_false]
  rcases hr : testConnection net s with ⟨r, sent⟩
  rw [hr] at hp
  rcases r with _ | _ | err
  · exact absurd rfl hp
  · rfl
  · rfl

theorem HealthCheck_keeps (net : Net) (s : HomeAssistantSkill) :
    (HealthCheck net s).skill.status.State = s.status.State ∧
    (HealthCheck net s).skill.status.UsageCount = s.status.UsageCount ∧
    (HealthCheck net s).skill.haConfig = s.haConfig := by
  unfold HealthCheck
  split
  · exact ⟨rfl, rfl, rfl⟩
  · split <;> exact ⟨rfl, rfl, rfl⟩

theorem Initialize_haConfig (net : Net) (s : HomeAssistantSkill) (config : SkillConfig) :
    (Initialize net s config).skill.haConfig = some (parsedHAConfig config.Config) := by
  by_cases h : (parsedHAConfig config.Config).AccessToken = ""
  · rw [Initialize_of_no_token net s config h]
  · rw [Initialize_of_token net s config h]
    rfl

theorem UpdateConfig_haConfig (net : Net) (s : HomeAssistantSkill) (config : SkillConfig) :
    (UpdateConfig net s config).skill.haConfig = some (parsedHAConfig config.Config) := by
  by_cases h : (parsedHAConfig config.Config).AccessToken = ""
  · rw [UpdateConfig_of_no_token net s config h]
  · rw [UpdateConfig_of_token net s config h]
    rfl

theorem UpdateConfig_state (net : Net) (s : HomeAssistantSkill) (config : SkillConfig) :
    (UpdateConfig net s config).skill.status.State = s.status.State := by
  by_cases h : (parsedHAConfig config.Config).AccessToken = ""
  · rw [UpdateConfig_of_no_token net s config h]
  · rw [UpdateConfig_of_token net s config h]
    simp only
    split <;> rfl

/-- In every reachable skill a ready state comes with a parsed configuration: the state
is set to ready only by `Initialize`, after `parseHAConfig` has stored `haConfig`. -/
theorem Reachable.configured {s : HomeAssistantSkill} (hr : Reachable s) :
    s.status.State = .ready → s.haConfig ≠ none := by
  induction hr with
  | new => intro h; exact absurd h (by decide)
  | afterInitialize net s config _ _ =>
    intro _
    rw [Initialize_haConfig]
    simp
  | afterTeardown s _ _ =>
    intro h
    have hs : (Teardown s).skill.status.State = .shutdown := rfl
    rw [hs] at h
    exact absurd h (by decide)
  | afterHandleIntent net now elapsed s intent _ ih =>
    intro h
    rw [HandleIntent_skill] at h ⊢
    exact ih h
  | afterUpdateConfig net s config _ _ =>
    intro _
    rw [UpdateConfig_haConfig]
    simp
  | afterHealthCheck net s _ ih =>
    intro h
    rw [(HealthCheck_keeps net s).1] at h
    rw [(HealthCheck_keeps net s).2.2]
    exact ih h

/-- C10. For every reachable skill and every environment, `HealthCheck` returns, and it
returns an error exactly when the state is not ready or the probe fails. When the state
is not ready nothing is sent and the skill is unchanged; when it is ready the probe of
`testConnection` is made, and a failure sets healthy=false and a non-empty last-error,
a success sets healthy=true and an empty last-error. State and usage counter are never
changed. -/
theorem C10_HealthCheck_outcomes (net : Net) (s : HomeAssistantSkill) (hr : Reachable s) :
    (HealthCheck net s).result ≠ none ∧
    ((∃ err, (HealthCheck net s).result = some (some err)) ↔
      (s.status.State ≠ .ready ∨ ∃ err, (testConnection net s).1 = some (some err))) ∧
    (s.status.State ≠ .ready →
      (HealthCheck net s).sent = [] ∧ (HealthCheck net s).skill = s ∧
      (HealthCheck net s).result =
        some (some ("skill not ready, current state: " ++ s.status.State.toString))) ∧
    (s.status.State = .ready → (HealthCheck net s).sent = (testConnection net s).2) ∧
    (s.status.State = .ready → ∀ err, (testConnection net s).1 = some (some err) →
      (HealthCheck net s).result = some (some err) ∧
      (HealthCheck net s).skill.status.Healthy = false ∧
      (HealthCheck net s).skill.status.LastError = "HA health check failed: " ++ err ∧
      (HealthCheck net s).skill.status.LastError ≠ "") ∧
    (s.status.State = .ready → (testConnection net s).1 = some none →
      (HealthCheck net s).result = some none ∧
      (HealthCheck net s).skill.status.Healthy = true ∧
      (HealthCheck net s).skill.status.LastError = "") ∧
    (HealthCheck net s).skill.status.State = s.status.State ∧
    (HealthCheck net s).skill.status.UsageCount = s.status.UsageCount := by
  have hkeep := HealthCheck_keeps net s
  by_cases hst : s.status.State = .ready
  · have hc := hr.configured hst
    have hp := testConnection_returns net s hc
    have hH := HealthCheck_ready net s hst hc
    refine ⟨?_, ?_, fun h => absurd hst h, ?_, ?_, ?_, hkeep.1, hkeep.2.1⟩
    · rw [hH]; exact hp
    · rw [hH]
      constructor
      · rintro ⟨err, h⟩
        exact Or.inr ⟨err, h⟩
      · rintro (h | ⟨err, h⟩)
        · exact absurd hst h
        · exact ⟨err, h⟩
    · intro _
      rw [hH]
    · intro _ err herr
      rw [hH]
      simp only [herr]
      refine ⟨trivial, trivial, trivial, ?_⟩
      intro h
      have hlen := congrArg String.length h
      simp [String.length_append] at hlen
      exact absurd hlen.1 (by decide)
    · intro _ hok
      rw [hH]
      simp only [hok]
      exact ⟨trivial, trivial, trivial⟩
  · have hH := HealthCheck_not_ready net s hst
    refine ⟨?_, ?_, fun _ => ?_, fun h => absurd h hst, fun h => absurd h hst,
      fun h => absurd h hst, hkeep.1, hkeep.2.1⟩
    · rw [hH]; simp
    · rw [hH]
      constructor
      · intro _
        exact Or.inl hst
      · intro _
        exact ⟨_, rfl⟩
    · rw [hH]
      exact ⟨rfl, rfl, rfl⟩

/-- Witness of C10: a skill made ready by `Initialize` is checked while the hub is down
(an error, healthy=false, state kept), and a fresh skill, still loading, is checked (an
error, nothing sent, skill unchanged). -/
theorem C10_HealthCheck_outcomes_witness :
    ((HealthCheck hubUnreachable
        (Initialize (hubAnswering 200 "") NewSkillPlugin
          (hostConfig [("access_token", .str "secret")])).skill).result =
      some (some "failed to connect to HA: connection refused") ∧
     (HealthCheck hubUnreachable
        (Initialize (hubAnswering 200 "") NewSkillPlugin
          (hostConfig [("access_token", .str "secret")])).skill).skill.status.State =
      (Initialize (hubAnswering 200 "") NewSkillPlugin
          (hostConfig [("access_token", .str "secret")])).skill.status.State ∧
     (HealthCheck hubUnreachable
        (Initialize (hubAnswering 200 "") NewSkillPlugin
          (hostConfig [("access_token", .str "secret")])).skill).skill.status.Healthy =
      false) ∧
    ((HealthCheck (hubAnswering 200 "") NewSkillPlugin).sent = [] ∧
     (HealthCheck (hubAnswering 200 "") NewSkillPlugin).skill = NewSkillPlugin ∧
     (HealthCheck (hubAnswering 200 "") NewSkillPlugin).result =
       some (some ("skill not ready, current state: " ++
         NewSkillPlugin.status.State.toString))) :=
  have h := C10_HealthCheck_outcomes hubUnreachable
    (Initialize (hubAnswering 200 "") NewSkillPlugin
      (hostConfig [("access_token", .str "secret")])).skill
    (Reachable.afterInitialize _ _ _ Reachable.new)
  have h2 := C10_HealthCheck_outcomes (hubAnswering 200 "") NewSkillPlugin Reachable.new
  ⟨⟨(h.2.2.2.2.1 (by decide) "failed to connect to HA: connection refused"
        (by decide)).1,
     h.2.2.2.2.2.2.1,
     (h.2.2.2.2.1 (by decide) "failed to connect to HA: connection refused"
        (by decide)).2.1⟩,
    h2.2.2.1 (by decide)⟩

/-- C9 (as the code has it). For every prior skill and every config map whose
`access_token` is a non-empty string, `UpdateConfig` returns no error and makes the probe
of `testConnection` under the new configuration. If the probe succeeds, healthy becomes
true and last-error empty; if it fails, last-error records the failure and healthy keeps
the value it had before the call. `Initialize` ends with healthy=true after a failed
probe. -/
theorem C9_UpdateConfig_health (net : Net) (s : HomeAssistantSkill) (config : SkillConfig)
    (token : String)
    (hlookup : config.Config.lookup "access_token" = some (.str token))
    (htoken : token ≠ "") :
    (UpdateConfig net s config).result = some none ∧
    (UpdateConfig net s config).sent =
      (testConnection net (UpdateConfig net s config).skill).2 ∧
    ((testConnection net (UpdateConfig net s config).skill).1 = some none →
      (UpdateConfig net s config).skill.status.Healthy = true ∧
      (UpdateConfig net s config).skill.status.LastError = "") ∧
    (∀ err, (testConnection net (UpdateConfig net s config).skill).1 = some (some err) →
      (UpdateConfig net s config).skill.status.Healthy = s.status.Healthy ∧
      (UpdateConfig net s config).skill.status.LastError =
        "HA connection test failed: " ++ err) ∧
    (∀ err, (testConnection net (Initialize net s config).skill).1 = some (some err) →
      (Initialize net s config).result = some none ∧
      (Initialize net s config).sent =
        (testConnection net (Initialize net s config).skill).2 ∧
      (Initialize net s config).skill.status.Healthy = true ∧
      (Initialize net s config).skill.status.LastError =
        "HA connection test failed: " ++ err) := by
  have hne : (parsedHAConfig config.Config).AccessToken ≠ "" := by
    rw [AccessToken_of_lookup config.Config token hlookup]
    exact htoken
  have hU := UpdateConfig_of_token net s config hne
  have hI := Initialize_of_token net s config hne
  have hpU : testConnection net (UpdateConfig net s config).skill =
      testConnection net (withConfig s config) := by
    apply testConnection_congr <;> rw [hU]
  have hpI : testConnection net (Initialize net s config).skill =
      testConnection net (withConfig s config) := by
    apply testConnection_congr <;> rw [hI]
  rw [hpU, hpI]
  refine ⟨?_, ?_, ?_, ?_, ?_⟩
  · rw [hU]
  · rw [hU]
  · intro hok
    rw [hU]
    simp only [hok]
    exact ⟨trivial, trivial⟩
  · intro err herr
    rw [hU]
    simp only [herr]
    exact ⟨trivial, trivial⟩
  · intro err herr
    rw [hI]
    simp only [herr]
    exact ⟨trivial, trivial, trivial, trivial⟩

/-- Witness of C9 (as the code has it): a healthy skill is reconfigured while the hub is
down (the call succeeds, healthy stays true and last-error records the failure), and a
fresh skill is reconfigured while the hub answers 200 (healthy becomes true). -/
theorem C9_UpdateConfig_health_witness :
    ((UpdateConfig hubUnreachable readySkill
        (hostConfig [("access_token", .str "secret")])).result = some none ∧
     (UpdateConfig hubUnreachable readySkill
        (hostConfig [("access_token", .str "secret")])).skill.status.Healthy =
      readySkill.status.Healthy ∧
     (UpdateConfig hubUnreachable readySkill
        (hostConfig [("access_token", .str "secret")])).skill.status.LastError =
      "HA connection test failed: " ++ "failed to connect to HA: connection refused") ∧
    ((UpdateConfig (hubAnswering 200 "") NewSkillPlugin
        (hostConfig [("access_token", .str "secret")])).skill.status.Healthy = true ∧
     (UpdateConfig (hubAnswering 200 "") NewSkillPlugin
        (hostConfig [("access_token", .str "secret")])).skill.status.LastError = "") :=
  have h := C9_UpdateConfig_health hubUnreachable readySkill
    (hostConfig [("access_token", .str "secret")]) "secret" (by decide) (by decide)
  have h2 := C9_UpdateConfig_health (hubAnswering 200 "") NewSkillPlugin
    (hostConfig [("access_token", .str "secret")]) "secret" (by decide) (by decide)
  ⟨⟨h.1, h.2.2.2.1 "failed to connect to HA: connection refused" (by decide)⟩,
    h2.2.2.1 (by decide)⟩

/-- C9 (as stated) fails: a healthy skill is given a valid configuration while the hub
refuses connections. The probe fails, `UpdateConfig` returns no error, and healthy is
still true. -/
theorem C9_counterexample :
    readySkill.status.Healthy = true ∧
    (UpdateConfig hubUnreachable readySkill
        (hostConfig [("access_token", .str "secret")])).result = some none ∧
    (UpdateConfig hubUnreachable readySkill
        (hostConfig [("access_token", .str "secret")])).sent =
      [probeRequest readySkill (parsedHAConfig [("access_token", .str "secret")])] ∧
    hubUnreachable.roundTrip
        (probeRequest readySkill (parsedHAConfig [("access_token", .str "secret")])) =
      .transportError "connection refused" ∧
    (UpdateConfig hubUnreachable readySkill
        (hostConfig [("access_token", .str "secret")])).skill.status.Healthy = true ∧
    (UpdateConfig hubUnreachable readySkill
        (hostConfig [("access_token", .str "secret")])).skill.status.LastError =
      "HA connection test failed: failed to connect to HA: connection refused" := by
  refine ⟨rfl, by decide, by decide, rfl, by decide, by decide⟩

theorem float64ToInt_whole (n : Int) (hlo : -2 ^ 63 ≤ n) (hhi : n < 2 ^ 63) :
    float64ToInt (n : ℚ) = n := by
  unfold float64ToInt
  simp only [Int.floor_intCast, Int.ceil_intCast, ite_self]
  rw [if_pos ⟨hlo, hhi⟩]

theorem float64ToInt_below_one (v : ℚ) (hv : v < 1) : float64ToInt v ≤ 0 := by
  have ht : (if 0 ≤ v then ⌊v⌋ else ⌈v⌉) ≤ 0 := by
    by_cases h0 : 0 ≤ v
    · rw [if_pos h0]
      have : ⌊v⌋ = 0 := Int.floor_eq_zero_iff.mpr ⟨h0, hv⟩
      omega
    · rw [if_neg h0]
      have hle : v ≤ ((0 : Int) : ℚ) := by
        push_cast
        exact le_of_lt (not_le.mp h0)
      exact Int.ceil_le.mpr hle
  unfold float64ToInt
  simp only
  generalize (if 0 ≤ v then ⌊v⌋ else ⌈v⌉) = t at ht
  by_cases hfit : -2 ^ 63 ≤ t ∧ t < 2 ^ 63
  · rw [if_pos hfit]
    exact ht
  · rw [if_neg hfit]
    norm_num

theorem durationSeconds_fits (n : Int) (hpos : 0 < n) (hfit : n * Second < 2 ^ 63) :
    durationSeconds n = n * Second := by
  unfold durationSeconds wrapInt64
  have h0 : 0 ≤ n * Second := by
    unfold Second
    omega
  have : (n * Second + 2 ^ 63) % 2 ^ 64 = n * Second + 2 ^ 63 := by
    apply Int.emod_eq_of_lt <;> omega
  omega

theorem Timeout_whole (entries : List (String × ConfigValue)) (n : Int)
    (hlookup : entries.lookup "timeout_seconds" = some (.float64 (n : ℚ)))
    (hpos : 0 < n) (hfit : n * Second < 2 ^ 63) :
    (parsedHAConfig entries).Timeout = n := by
  unfold parsedHAConfig
  simp only
  rw [hlookup]
  have hhi : n < 2 ^ 63 := by
    unfold Second at hfit
    omega
  exact float64ToInt_whole n (by omega) hhi

theorem Timeout_default (entries : List (String × ConfigValue))
    (hlookup : ∀ v, entries.lookup "timeout_seconds" ≠ some (.float64 v)) :
    (parsedHAConfig entries).Timeout = 30 := by
  unfold parsedHAConfig
  simp only
  rcases h : entries.lookup "timeout_seconds" with _ | x
  · rfl
  · cases x with
    | str t => rfl
    | bool b => rfl
    | float64 v => exact absurd h (hlookup v)
    | other => rfl

theorem Timeout_below_one (entries : List (String × ConfigValue)) (v : ℚ)
    (hlookup : entries.lookup "timeout_seconds" = some (.float64 v)) (hv : v < 1) :
    (parsedHAConfig entries).Timeout ≤ 0 := by
  unfold parsedHAConfig
  simp only
  rw [hlookup]
  exact float64ToInt_below_one v hv

theorem run_httpClient (s : HomeAssistantSkill) (call : LifecycleCall)
    (hok : (call.run s).result = some none) :
    (call.run s).skill.httpClient = (withConfig s call.config).httpClient := by
  by_cases h : (parsedHAConfig call.config.Config).AccessToken = ""
  · cases call with
    | init net config =>
      simp only [LifecycleCall.run, LifecycleCall.config] at hok h
      rw [Initialize_of_no_token net s config h] at hok
      simp at hok
    | update net config =>
      simp only [LifecycleCall.run, LifecycleCall.config] at hok h
      rw [UpdateConfig_of_no_token net s config h] at hok
      simp at hok
  · cases call with
    | init net config =>
      simp only [LifecycleCall.run, LifecycleCall.config] at h ⊢
      rw [Initialize_of_token net s config h]
    | update net config =>
      simp only [LifecycleCall.run, LifecycleCall.config] at h ⊢
      rw [UpdateConfig_of_token net s config h]

/-- C8 (as the code has it). Take any sequence of `Initialize` / `UpdateConfig` calls on
a skill made by `NewSkillPlugin`, followed by one more such call that succeeds. After
that last call the client timeout is
* `n` seconds, when its config gives `timeout_seconds` the whole number `n` with
  `0 < n` and `n` seconds fit a `time.Duration`; every request `HandleIntent` then sends
  carries that timeout;
* 30 seconds, when `timeout_seconds` is absent or not a number;
* what it was before the call, when `timeout_seconds` is a number below 1 (zero and the
  negative numbers included); that is 30 seconds when the call is the first. -/
theorem C8_timeout_after_last_call (calls : List LifecycleCall) (last : LifecycleCall)
    (hok : (last.run (runCalls NewSkillPlugin calls)).result = some none) :
    (∀ n : Int, last.config.Config.lookup "timeout_seconds" = some (.float64 (n : ℚ)) →
      0 < n → n * Second < 2 ^ 63 →
      (last.run (runCalls NewSkillPlugin calls)).skill.httpClient.Timeout = n * Second ∧
      ∀ (net : Net) (now elapsed : Nat) (intent : VoiceIntent),
        ∀ req ∈ (HandleIntent net now elapsed
            (last.run (runCalls NewSkillPlugin calls)).skill intent).sent,
          req.timeout = n * Second) ∧
    ((∀ v, last.config.Config.lookup "timeout_seconds" ≠ some (.float64 v)) →
      (last.run (runCalls NewSkillPlugin calls)).skill.httpClient.Timeout = 30 * Second) ∧
    (∀ v : ℚ, last.config.Config.lookup "timeout_seconds" = some (.float64 v) → v < 1 →
      (last.run (runCalls NewSkillPlugin calls)).skill.httpClient.Timeout =
        (runCalls NewSkillPlugin calls).httpClient.Timeout) ∧
    (∀ v : ℚ, last.config.Config.lookup "timeout_seconds" = some (.float64 v) → v < 1 →
      calls = [] →
      (last.run (runCalls NewSkillPlugin calls)).skill.httpClient.Timeout = 30 * Second) := by
  have hc := run_httpClient (runCalls NewSkillPlugin calls) last hok
  have hkeep : ∀ v : ℚ, last.config.Config.lookup "timeout_seconds" = some (.float64 v) →
      v < 1 →
      (last.run (runCalls NewSkillPlugin calls)).skill.httpClient.Timeout =
        (runCalls NewSkillPlugin calls).httpClient.Timeout := by
    intro v hv hlt
    have ht := Timeout_below_one last.config.Config v hv hlt
    rw [hc]
    unfold withConfig
    simp only [gt_iff_lt]
    rw [if_neg (by omega)]
  refine ⟨?_, ?_, hkeep, ?_⟩
  · intro n hn hpos hfit
    have ht := Timeout_whole last.config.Config n hn hpos hfit
    have hT : (last.run (runCalls NewSkillPlugin calls)).skill.httpClient.Timeout =
        n * Second := by
      rw [hc]
      unfold withConfig
      simp only [gt_iff_lt, ht]
      rw [if_pos hpos]
      exact durationSeconds_fits n hpos hfit
    refine ⟨hT, ?_⟩
    intro net now elapsed intent req hreq
    rw [HandleIntent_sent_timeout net now elapsed _ intent req hreq, hT]
  · intro hv
    have ht := Timeout_default last.config.Config hv
    rw [hc]
    unfold withConfig
    simp only [gt_iff_lt, ht]
    rw [if_pos (by decide)]
    show durationSeconds 30 = 30 * Second
    decide
  · intro v hv hlt hnil
    rw [hkeep v hv hlt, hnil]
    rfl

/-- Witness of C8 (as the code has it): after `Initialize` with 10 seconds, an
`UpdateConfig` with 45 seconds gives 45 seconds, one without `timeout_seconds` gives 30
seconds, and one with 0 seconds leaves the 10 seconds in place. -/
theorem C8_timeout_after_last_call_witness :
    (LifecycleCall.run
        (runCalls NewSkillPlugin
          [.init (hubAnswering 200 "")
            (hostConfig [("access_token", .str "secret"), ("timeout_seconds", .float64 10)])])
        (.update (hubAnswering 200 "")
          (hostConfig [("access_token", .str "secret"), ("timeout_seconds", .float64 45)]))
      ).skill.httpClient.Timeout = 45 * Second ∧
    (LifecycleCall.run
        (runCalls NewSkillPlugin
          [.init (hubAnswering 200 "")
            (hostConfig [("access_token", .str "secret"), ("timeout_seconds", .float64 10)])])
        (.update (hubAnswering 200 "") (hostConfig [("access_token", .str "secret")]))
      ).skill.httpClient.Timeout = 30 * Second ∧
    (LifecycleCall.run
        (runCalls NewSkillPlugin
          [.init (hubAnswering 200 "")
            (hostConfig [("access_token", .str "secret"), ("timeout_seconds", .float64 10)])])
        (.update (hubAnswering 200 "")
          (hostConfig [("access_token", .str "secret"), ("timeout_seconds", .float64 0)]))
      ).skill.httpClient.Timeout =
      (runCalls NewSkillPlugin
          [.init (hubAnswering 200 "")
            (hostConfig [("access_token", .str "secret"), ("timeout_seconds", .float64 10)])]
        ).httpClient.Timeout :=
  ⟨((C8_timeout_after_last_call
      [.init (hubAnswering 200 "")
        (hostConfig [("access_token", .str "secret"), ("timeout_seconds", .float64 10)])]
      (.update (hubAnswering 200 "")
        (hostConfig [("access_token", .str "secret"), ("timeout_seconds", .float64 45)]))
      (by decide)).1 45 (by simp [LifecycleCall.config, hostConfig, List.lookup])
        (by decide) (by decide)).1,
   (C8_timeout_after_last_call
      [.init (hubAnswering 200 "")
        (hostConfig [("access_token", .str "secret"), ("timeout_seconds", .float64 10)])]
      (.update (hubAnswering 200 "") (hostConfig [("access_token", .str "secret")]))
      (by decide)).2.1 (fun v => by simp [LifecycleCall.config, hostConfig, List.lookup]),
   (C8_timeout_after_last_call
      [.init (hubAnswering 200 "")
        (hostConfig [("access_token", .str "secret"), ("timeout_seconds", .float64 10)])]
      (.update (hubAnswering 200 "")
        (hostConfig [("access_token", .str "secret"), ("timeout_seconds", .float64 0)]))
      (by decide)).2.2.1 0 (by simp [LifecycleCall.config, hostConfig, List.lookup])
        (by norm_num)⟩

/-- C8 (as stated) fails twice. After a successful `Initialize` with 10 seconds, a
successful `UpdateConfig` whose `timeout_seconds` is 0 leaves the timeout at 10 seconds,
not at the default of 30. And a successful `Initialize` with 10000000000 seconds leaves
a negative timeout: the product with `time.Second` wraps around. -/
theorem C8_counterexample :
    (Initialize (hubAnswering 200 "") NewSkillPlugin
        (hostConfig [("access_token", .str "secret"), ("timeout_seconds", .float64 10)])
      ).result = some none ∧
    (UpdateConfig (hubAnswering 200 "")
        (Initialize (hubAnswering 200 "") NewSkillPlugin
          (hostConfig [("access_token", .str "secret"), ("timeout_seconds", .float64 10)])
        ).skill
        (hostConfig [("access_token", .str "secret"), ("timeout_seconds", .float64 0)])
      ).result = some none ∧
    (UpdateConfig (hubAnswering 200 "")
        (Initialize (hubAnswering 200 "") NewSkillPlugin
          (hostConfig [("access_token", .str "secret"), ("timeout_seconds", .float64 10)])
        ).skill
        (hostConfig [("access_token", .str "secret"), ("timeout_seconds", .float64 0)])
      ).skill.httpClient.Timeout = 10 * Second ∧
    (10 : Int) * Second ≠ 30 * Second ∧
    (Initialize (hubAnswering 200 "") NewSkillPlugin
        (hostConfig [("access_token", .str "secret"),
          ("timeout_seconds", .float64 10000000000)])
      ).result = some none ∧
    (Initialize (hubAnswering 200 "") NewSkillPlugin
        (hostConfig [("access_token", .str "secret"),
          ("timeout_seconds", .float64 10000000000)])
      ).skill.httpClient.Timeout = -8446744073709551616 := by
  refine ⟨by decide, by decide, by decide, by decide, by decide, by decide⟩

end HomeAssistant
